import Mathlib

/-!
Verification of the OTLP hello-world tracing demo (src/main.rs).

The file embeds, as executable Lean definitions, the parts of the program
the claims are about: endpoint resolution, exporter construction, resource
detector aggregation, sampler configuration, the instrumented main span and
the shutdown/flush sequencing.  External SDK behaviour that the repository
only calls (resource merge precedence, batch flush, sampling decisions) is
modelled from the specification, with a doc comment saying so.
-/

namespace OtelHello

/-- A resource attribute set, embedded as an association list; lookup takes
the first matching key, so the front of the list has priority. -/
abbrev Resource := List (String × String)

/-- Lookup of an attribute key in a resource. -/
def Resource.find (r : Resource) (k : String) : Option String :=
  r.lookup k

/-- Modelled from the spec: the external SDK `Resource::merge` used at
src/main.rs lines 43-47.  The merge is a left-to-right fold where, for a
duplicate key, the value of the later (second) resource wins; placing the
second resource in front of the association list gives its entries
priority under `Resource.find`. -/
def Resource.merge (self other : Resource) : Resource :=
  other ++ self

/-- The merge chain of src/main.rs lines 43-47:
`os.merge(process).merge(sdk).merge(env).merge(telemetry)`. -/
def detectChain (os proc sdk env tel : Resource) : Resource :=
  ((((Resource.merge os proc).merge sdk).merge env).merge tel)

/-- The observable environment state the program starts from: the facts each
detector can read, the process environment variables, and a wall clock (read
elsewhere in main via `chrono::Utc::now()`, never by the detectors). -/
structure EnvState where
  osFacts : Resource
  processFacts : Resource
  sdkFacts : Resource
  envVars : List (String × String)
  telemetryFacts : Resource
  wallClock : Int

/-- `OsResourceDetector.detect` (src/main.rs line 20): reads only
operating-system facts. -/
def osDetect (st : EnvState) : Resource := st.osFacts

/-- `ProcessResourceDetector.detect` (src/main.rs line 21): reads only
process facts (pid, executable path, args). -/
def processDetect (st : EnvState) : Resource := st.processFacts

/-- `SdkProvidedResourceDetector.detect` (src/main.rs line 22): reads only
the fixed SDK identity constants. -/
def sdkDetect (st : EnvState) : Resource := st.sdkFacts

/-- Modelled from the spec: the external environment detector parses the
`OTEL_RESOURCE_ATTRIBUTES` convention, a comma-separated list of `key=value`
pairs; a fragment that is not such a pair is omitted. -/
def parseResourceAttrs : Option String → Resource
  | none => []
  | some s =>
      (s.splitOn ",").filterMap fun kv =>
        match kv.splitOn "=" with
        | [k, v] => some (k, v)
        | _ => none

/-- `EnvResourceDetector::new().detect` (src/main.rs line 23): reads only
the environment variables. -/
def envDetect (st : EnvState) : Resource :=
  parseResourceAttrs (st.envVars.lookup "OTEL_RESOURCE_ATTRIBUTES")

/-- `TelemetryResourceDetector.detect` (src/main.rs line 24): reads only the
telemetry-library self-identification. -/
def telemetryDetect (st : EnvState) : Resource := st.telemetryFacts

/-- The merged resource installed by `init_tracer` (src/main.rs lines
20-24 and 43-47): the five detectors applied to the environment state and
folded left-to-right in the fixed order OS, process, SDK, environment,
telemetry. -/
def mergedResource (st : EnvState) : Resource :=
  detectChain (osDetect st) (processDetect st) (sdkDetect st)
    (envDetect st) (telemetryDetect st)

/-- The hard-coded fallback endpoint of src/main.rs line 35. -/
def defaultEndpoint : String := "http://localhost:4317"

/-- The fixed traces path appended at src/main.rs line 36. -/
def tracesPath : String := "/v1/traces"

/-- The base endpoint resolution of src/main.rs lines 34-35: read the
environment variable `OTEL_EXPORTER_OTLP_TRACES_ENDPOINT`, falling back to
the hard-coded default when it is unset. -/
def resolveBase (envVars : List (String × String)) : String :=
  (envVars.lookup "OTEL_EXPORTER_OTLP_TRACES_ENDPOINT").getD defaultEndpoint

/-- The full export target handed to `with_endpoint` (src/main.rs lines
32-37): the resolved base endpoint concatenated with the fixed traces path. -/
def exportTarget (envVars : List (String × String)) : String :=
  resolveBase envVars ++ tracesPath

/-- Exporter configuration: the resolved endpoint and the request timeout in
seconds, `none` meaning unbounded. -/
structure ExporterConfig where
  endpoint : String
  timeoutSecs : Option Nat
  deriving DecidableEq, Repr

/-- The exporter built at src/main.rs lines 30-38: tonic gRPC exporter with
the resolved export target and `with_timeout(Duration::from_secs(3))`. -/
def buildExporter (envVars : List (String × String)) : ExporterConfig :=
  { endpoint := exportTarget envVars, timeoutSecs := some 3 }

/-- The sampling policies of the Trace Configuration data model. -/
inductive Sampler where
  | alwaysOn
  | alwaysOff
  | ratioBased
  | parentBased
  deriving DecidableEq, Repr

/-- Parent context a sampling decision may depend on. -/
inductive ParentContext where
  | noParent
  | sampledParent
  | unsampledParent
  deriving DecidableEq, Repr

/-- Modelled from the spec: the sampling decision of the external SDK.
`AlwaysOn` records every span regardless of parent context; `AlwaysOff`
records none; the remaining policies consult the parent context.  Only
`AlwaysOn` is exercised by this program. -/
def shouldSample : Sampler → ParentContext → Bool
  | .alwaysOn, _ => true
  | .alwaysOff, _ => false
  | .ratioBased, p => p == .sampledParent
  | .parentBased, p => p != .unsampledParent

/-- The globally installed propagation format (src/main.rs line 17). -/
inductive Propagator where
  | traceContext
  deriving DecidableEq, Repr

/-- The trace configuration of src/main.rs lines 40-50: one sampler plus the
merged resource. -/
structure TraceConfig where
  sampler : Sampler
  resource : Resource
  deriving DecidableEq, Repr

/-- The pipeline produced by `init_tracer`. -/
structure Pipeline where
  propagator : Propagator
  exporter : ExporterConfig
  config : TraceConfig
  deriving DecidableEq, Repr

/-- The configuration assembled by `init_tracer` (src/main.rs lines 15-52):
W3C trace-context propagator, tonic exporter with resolved endpoint and a
3-second timeout, the merged resource and the `AlwaysOn` sampler. -/
def init_tracer (st : EnvState) : Pipeline :=
  { propagator := .traceContext
    exporter := buildExporter st.envVars
    config := { sampler := .alwaysOn, resource := mergedResource st } }

/-- A structured event recorded on a span by an `info!` call. -/
structure SpanEvent where
  message : String
  fields : List (String × String)
  deriving DecidableEq, Repr

/-- A span: name, attributes and contained events. -/
structure Span where
  name : String
  attributes : List (String × String)
  events : List SpanEvent
  deriving DecidableEq, Repr

/-- The root span of main (src/main.rs lines 60-88): name
`hello_world_operation`, the three attributes of the `info_span!` call, and
the three `info!` events recorded inside the instrumented async block, in
program order.  `version` stands for `env!("CARGO_PKG_VERSION")` and `now`
for the `chrono::Utc::now().timestamp()` read in the second event. -/
def helloWorldSpan (version : String) (now : Int) : Span :=
  { name := "hello_world_operation"
    attributes :=
      [("service.name", "hello-world-demo"),
       ("service.version", version),
       ("security.context", "demo_context")]
    events :=
      [{ message := "Starting hello world application", fields := [] },
       { message := "Hello, OpenTelemetry!"
         fields := [("timestamp", toString now), ("security.level", "INFO")] },
       { message := "Application completed successfully", fields := [] }] }

/-- The sequence of observable steps main performs after a successful
`init_tracer` (src/main.rs lines 57-91), in program order. -/
inductive Step where
  | initPipeline
  | openSpan
  | recordEvent (i : Nat)
  | sleep
  | closeSpan
  | shutdownFlush
  deriving DecidableEq, Repr

/-- The step sequence of main: build the pipeline, open the root span,
record two events, sleep one second, record the final event, close the span,
then flush via `global::shutdown_tracer_provider()`. -/
def mainSteps : List Step :=
  [.initPipeline, .openSpan, .recordEvent 0, .recordEvent 1, .sleep,
   .recordEvent 2, .closeSpan, .shutdownFlush]

/-- The state of the batch export pipeline: spans buffered by the background
batch task and spans already delivered to the collector. -/
structure ExportState where
  buffered : List Span
  exported : List Span
  deriving DecidableEq, Repr

/-- Modelled from the spec: the external batch pipeline.  Closing a span
enqueues it into the batch buffer; the shutdown flush delivers everything
buffered (the exporter target being reachable within the shutdown timeout);
the other steps do not touch the export state. -/
def runStep (version : String) (now : Int) (s : ExportState) :
    Step → ExportState
  | .closeSpan => { s with buffered := s.buffered ++ [helloWorldSpan version now] }
  | .shutdownFlush => { buffered := [], exported := s.exported ++ s.buffered }
  | _ => s

/-- Running a step sequence from the empty export state. -/
def runSteps (version : String) (now : Int) (steps : List Step) : ExportState :=
  steps.foldl (runStep version now) { buffered := [], exported := [] }

/-- One export batch: the spans delivered together with the resource. -/
structure ExportBatch where
  resource : Resource
  spans : List Span
  deriving DecidableEq, Repr

/-- What the end-to-end run exports: the spans flushed by `mainSteps`
together with the merged resource installed by `init_tracer`. -/
def mainExport (st : EnvState) (version : String) : ExportBatch :=
  { resource := (init_tracer st).config.resource
    spans := (runSteps version st.wallClock mainSteps).exported }

/-- The outcome of main (src/main.rs lines 55-93) as a function of the
`init_tracer` result: on error the `?` operator returns it as the generic
boxed error before any span exists; on success the demo runs, exporting the
root span, and main returns `Ok(())`. -/
def runMain (init : Except String Pipeline) (version : String) (now : Int) :
    Except String Unit × List Span :=
  match init with
  | .error e => (.error e, [])
  | .ok _ => (.ok (), (runSteps version now mainSteps).exported)

/-- Process exit status of a Rust main returning `Result`: 0 on `Ok`,
non-zero on `Err`. -/
def exitCode : Except String Unit → Nat
  | .error _ => 1
  | .ok _ => 0

/-- Lookup distributes over append: the first list is consulted first. -/
theorem lookup_append (l₁ l₂ : List (String × String)) (k : String) :
    (l₁ ++ l₂).lookup k = ((l₁.lookup k).orElse fun _ => l₂.lookup k) := by
  induction l₁ with
  | nil => rfl
  | cons hd tl ih =>
      by_cases h : k = hd.1
      · simp [List.lookup, h, Option.orElse]
      · have hb : (k == hd.1) = false := by
          simpa using h
        simp [List.lookup, hb, ih]

/-- Find in a merge prefers the second (later) resource. -/
theorem find_merge (a b : Resource) (k : String) :
    (Resource.merge a b).find k = ((b.find k).orElse fun _ => a.find k) := by
  simpa [Resource.merge, Resource.find] using lookup_append b a k

/-- An environment with only the generic endpoint variable set: the variable
named by claim C1, which the program never reads. -/
def genericEndpointEnv : List (String × String) :=
  [("OTEL_EXPORTER_OTLP_ENDPOINT", "http://collector:1234")]

/-- C1 fails on the code: the program reads `OTEL_EXPORTER_OTLP_TRACES_ENDPOINT`,
so with only `OTEL_EXPORTER_OTLP_ENDPOINT` set to `http://collector:1234`
the export target falls back to the default and is not
`http://collector:1234/v1/traces`. -/
theorem C1_counterexample :
    exportTarget genericEndpointEnv = "http://localhost:4317/v1/traces" ∧
      exportTarget genericEndpointEnv ≠ "http://collector:1234/v1/traces" := by
  constructor
  · rfl
  · decide

/-- C1 (amended): when the environment variable
`OTEL_EXPORTER_OTLP_TRACES_ENDPOINT` is set to `http://collector:1234`, the
resolved export target passed to the exporter equals
`http://collector:1234/v1/traces`. -/
theorem C1_amended (envVars : List (String × String))
    (h : envVars.lookup "OTEL_EXPORTER_OTLP_TRACES_ENDPOINT"
        = some "http://collector:1234") :
    exportTarget envVars = "http://collector:1234/v1/traces" := by
  simp [exportTarget, resolveBase, h, tracesPath]

/-- Witness for C1 (amended) at a concrete environment. -/
theorem C1_amended_witness :
    exportTarget [("OTEL_EXPORTER_OTLP_TRACES_ENDPOINT", "http://collector:1234")]
      = "http://collector:1234/v1/traces" :=
  C1_amended [("OTEL_EXPORTER_OTLP_TRACES_ENDPOINT", "http://collector:1234")] rfl

/-- C2: when the endpoint environment variable is unset, the resolved base
endpoint equals the documented default `http://localhost:4317` exactly. -/
theorem C2_default_endpoint (envVars : List (String × String))
    (h : envVars.lookup "OTEL_EXPORTER_OTLP_TRACES_ENDPOINT" = none) :
    resolveBase envVars = defaultEndpoint := by
  simp [resolveBase, h]

/-- Witness for C2 at the empty environment. -/
theorem C2_default_endpoint_witness :
    resolveBase [] = defaultEndpoint :=
  C2_default_endpoint [] rfl

/-- C3: the detectors are folded left-to-right in the fixed order OS,
process, SDK, environment, telemetry, and for every key the value in the
merged resource is the one of the latest detector in that order producing
that key: the telemetry value if any, else the environment value, else the
SDK value, else the process value, else the OS value. -/
theorem C3_last_write_wins (st : EnvState) (k : String) :
    mergedResource st = detectChain (osDetect st) (processDetect st)
        (sdkDetect st) (envDetect st) (telemetryDetect st) ∧
      (mergedResource st).find k =
        (((telemetryDetect st).find k).orElse fun _ =>
          (((envDetect st).find k).orElse fun _ =>
            (((sdkDetect st).find k).orElse fun _ =>
              (((processDetect st).find k).orElse fun _ =>
                (osDetect st).find k)))) := by
  refine ⟨rfl, ?_⟩
  simp only [mergedResource, detectChain, find_merge]

/-- C5: the exporter built by the pipeline builder always carries a bounded
request timeout equal to 3 seconds; it is never unbounded. -/
theorem C5_timeout (st : EnvState) :
    (init_tracer st).exporter.timeoutSecs = some 3 ∧
      (init_tracer st).exporter.timeoutSecs ≠ none := by
  exact ⟨rfl, by simp [init_tracer, buildExporter]⟩

/-- Witness for C5 at a concrete environment state. -/
theorem C5_timeout_witness :
    (init_tracer ⟨[], [], [], [], [], 0⟩).exporter.timeoutSecs = some 3 ∧
      (init_tracer ⟨[], [], [], [], [], 0⟩).exporter.timeoutSecs ≠ none :=
  C5_timeout ⟨[], [], [], [], [], 0⟩

/-- C7: the aggregation is total and cannot fail — it returns a resource for
every input, and a key is absent from the merged resource exactly when every
detector omits it, so a detector producing no value for a key merely yields
a smaller set. -/
theorem C7_total_aggregation (os proc sdk env tel : Resource) (k : String) :
    ((detectChain os proc sdk env tel).find k).isSome ↔
      ((os.find k).isSome ∨ (proc.find k).isSome ∨ (sdk.find k).isSome ∨
        (env.find k).isSome ∨ (tel.find k).isSome) := by
  simp only [detectChain, find_merge]
  rcases htel : tel.find k with _ | v <;>
    rcases henv : env.find k with _ | v <;>
      rcases hsdk : sdk.find k with _ | v <;>
        rcases hproc : proc.find k with _ | v <;>
          rcases hos : os.find k with _ | v <;>
            simp [Option.orElse]

/-- C9: the aggregation is deterministic — any two environment states that
agree on the OS facts, process facts, SDK constants, environment variables
and telemetry identity (however they differ otherwise, e.g. in the wall
clock) produce the identical merged resource. -/
theorem C9_deterministic (s₁ s₂ : EnvState)
    (hos : s₁.osFacts = s₂.osFacts)
    (hproc : s₁.processFacts = s₂.processFacts)
    (hsdk : s₁.sdkFacts = s₂.sdkFacts)
    (henv : s₁.envVars = s₂.envVars)
    (htel : s₁.telemetryFacts = s₂.telemetryFacts) :
    mergedResource s₁ = mergedResource s₂ := by
  simp [mergedResource, detectChain, osDetect, processDetect, sdkDetect,
    envDetect, telemetryDetect, hos, hproc, hsdk, henv, htel]

/-- Witness for C9: two states equal on the detector inputs but with
different wall clocks yield the same merged resource. -/
theorem C9_deterministic_witness :
    mergedResource ⟨[("os.type", "linux")], [], [], [], [], 0⟩ =
      mergedResource ⟨[("os.type", "linux")], [], [], [], [], 99⟩ :=
  C9_deterministic ⟨[("os.type", "linux")], [], [], [], [], 0⟩
    ⟨[("os.type", "linux")], [], [], [], [], 99⟩ rfl rfl rfl rfl rfl

/-- C10: the trace configuration installed by the pipeline builder always
uses the AlwaysOn sampler, and under it every span is sampled regardless of
parent context. -/
theorem C10_always_on (st : EnvState) (p : ParentContext) :
    (init_tracer st).config.sampler = Sampler.alwaysOn ∧
      shouldSample (init_tracer st).config.sampler p = true := by
  exact ⟨rfl, rfl⟩

/-- A concrete environment state for evaluating the demo run. -/
def demoState : EnvState :=
  { osFacts := [], processFacts := [], sdkFacts := [], envVars := []
    telemetryFacts := [], wallClock := 0 }

/-- C4 fails on the code: the instrumented block records three `info!`
events (start message, structured checkpoint, completion message), so the
exported root span contains three events, not two. -/
theorem C4_counterexample :
    ((mainExport demoState "0.1.0").spans.map fun s => s.events.length) = [3] ∧
      ((mainExport demoState "0.1.0").spans.map fun s => s.events.length) ≠ [2] := by
  exact ⟨rfl, by decide⟩

/-- C4 (amended): the end-to-end run exports exactly one root span, carrying
the attributes `service.name = "hello-world-demo"` and `service.version`,
containing exactly three events, together with the merged resource. -/
theorem C4_amended (st : EnvState) (version : String) :
    (mainExport st version).spans = [helloWorldSpan version st.wallClock] ∧
      (helloWorldSpan version st.wallClock).events.length = 3 ∧
      (helloWorldSpan version st.wallClock).attributes.lookup "service.name"
        = some "hello-world-demo" ∧
      (helloWorldSpan version st.wallClock).attributes.lookup "service.version"
        = some version ∧
      (mainExport st version).resource = mergedResource st := by
  exact ⟨rfl, rfl, rfl, rfl, rfl⟩

/-- C6: when `init_tracer` fails, main surfaces the generic error value,
the exit status is non-zero and no span is exported; when it succeeds and
the demo completes, the exit status is 0. -/
theorem C6_exit_codes (e : String) (p : Pipeline) (version : String) (now : Int) :
    (exitCode (runMain (Except.error e) version now).1 ≠ 0 ∧
        (runMain (Except.error e) version now).2 = []) ∧
      exitCode (runMain (Except.ok p) version now).1 = 0 := by
  exact ⟨⟨Nat.one_ne_zero, rfl⟩, rfl⟩

/-- C8: the shutdown flush is a separate step invoked exactly once, it is
the last step of main, it comes after the span close, and running the step
sequence delivers the one recorded span with nothing left buffered — no
span recorded before the flush is dropped. -/
theorem C8_shutdown_once (version : String) (now : Int) :
    (mainSteps.count Step.shutdownFlush = 1 ∧
        mainSteps.getLast? = some Step.shutdownFlush ∧
        mainSteps.indexOf Step.closeSpan < mainSteps.indexOf Step.shutdownFlush) ∧
      (runSteps version now mainSteps).exported = [helloWorldSpan version now] ∧
      (runSteps version now mainSteps).buffered = [] := by
  exact ⟨by decide, rfl, rfl⟩

end OtelHello
